import Mathlib

/-
Shallow embedding of src/main.py (AndyHoang/gemini_pd2): a command-line chat
client around the Gemini API.  The mutable `self.conversation_history` list is
embedded as explicit state passing (`List Message`), the provider call
`self.client.models.generate_content(...)` as an abstract `ProviderResult`
argument (it either raises or returns a structured response), and the dynamic
`hasattr`/truthiness probing on the response object as `Option` fields where
`none` covers both a missing attribute and a falsy value (Python `not x`).
-/

/-- Roles used in the conversation history (`"user"` / `"model"` strings in the
source dictionaries). -/
inductive Role where
  | user
  | model
deriving DecidableEq

/-- One element of the `"parts"` list of a history entry: `{"text": message}`. -/
structure MessagePart where
  text : String
deriving DecidableEq

/-- One entry of `self.conversation_history`:
`{"role": ..., "parts": [{"text": ...}]}`. -/
structure Message where
  role : Role
  parts : List MessagePart
deriving DecidableEq

/-- `self.wiki` (line 28 of src/main.py). -/
def wiki : String := "https://pd2reawakening.com/wiki/index.php?title=Main_Page"

/-- The `initial_instructions` f-string of `GeminiChatAgent.__init__`
(lines 43-67 of src/main.py), with `{self.wiki}` interpolated. -/
def initial_instructions : String :=
  "\n" ++
  "        [INSTRUCTIONS FOR ASSISTANT]\n" ++
  "        # You are a helpful assistant specializing in Project Diablo 2.\n" ++
  "        # You can access PD2 wiki information at " ++ wiki ++ ".\n" ++
  "        # When a user asks a question about Project Diablo 2 game mechanics, items, skills, crafting recipes, or character builds, you must first attempt to find the answer by browsing the official Project Diablo 2 wiki (https://wiki.projectdiablo2.com/wiki/Main_Page). Only use the general search tool if browsing the wiki directly doesn't yield relevant results or if the query is broader than specific game data.\n" ++
  "        ## If you have a result but not from project diablo 2 wikis, nor the internet, try check https://wiki.projectdiablo2.com/wiki/Patch_Notes to confirm (example: spirit rw sword have +1 all skills instead 2)\n" ++
  "        ## The user may provide character URLs or guide URLs in the conversation.\n" ++
  "        ## Use this information to help the user with their Diablo 2 character.\n" ++
  "        ## When asked about skill damage for a skill, if the synergy details (level, all synergies or somes) are not specified in the user's query, I must ask the user to \"Please provide the level of relevant synergies if you'd like a calculation based on them.\" before attempting to calculate the total damage.\n" ++
  "        1.  **Prioritize the Project Diablo 2 Wiki:** My first point of reference will always be the official PD2 wiki ([https://wiki.projectdiablo2.com/wiki/Main_Page](https://wiki.projectdiablo2.com/wiki/Main_Page)). I'll attempt to find the specific item directly there.\n" ++
  "        2.  **Use the `browse` tool comprehensively:** Once I identify a relevant wiki URL (or any other reliable PD2 source), I will use the `browse` tool to read its content.\n" ++
  "        3.  **Actively identify variable stats:** While browsing, I will specifically look for:\n" ++
  "            *   Numbers presented as a range (e.g., `[X-Y]`, `X-Y`).\n" ++
  "            *   Keywords like \"variable,\" \"random,\" \"min/max,\" \"up to,\" \"can roll.\"\n" ++
  "            *   Any stat that isn't a fixed, single value.\n" ++
  "        4.  **Report all relevant modifiers and their ranges:** My response will include:\n" ++
  "            *   The item's name and type.\n" ++
  "            *   All significant modifiers, clearly indicating which ones are variable and their full possible range.\n" ++
  "            *   Any crucial base stats (e.g., defense, block, socket potential).\n" ++
  "            *   Any other unique properties that define the item.\n" ++
  "        5.  **Cite the source:** I will always provide the direct URL to the wiki page or other source from which the information was obtained.\n" ++
  "        6.  **Confirm (if necessary):** If the information found is ambiguous, seems outdated, or if a user provides a specific detail that contradicts what I found, I will use `concise_search` with targeted queries (e.g., \"PD2 [item name] patch notes\") or check the Project Diablo 2 patch notes wiki ([https://wiki.projectdiablo2.com/wiki/Patch_Notes](https://wiki.projectdiablo2.com/wiki/Patch_Notes)) to confirm the most current statistics.\n" ++
  "        Please respond to the following message from the user.\n" ++
  "        [END INSTRUCTIONS]\n" ++
  "        "

/-- The placeholder model acknowledgement appended in `__init__`
(line 73 of src/main.py). -/
def model_acknowledgement : String :=
  "I understand. I'm a Project Diablo 2 assistant and will help with any questions about the game, characters, builds, or items. What would you like to know?"

/-- `GeminiChatAgent.add_user_message`: appends
`{"role": "user", "parts": [{"text": message}]}` to the history. -/
def add_user_message (history : List Message) (message : String) : List Message :=
  history ++ [{ role := Role.user, parts := [{ text := message }] }]

/-- `GeminiChatAgent.add_model_message`: appends
`{"role": "model", "parts": [{"text": message}]}` to the history. -/
def add_model_message (history : List Message) (message : String) : List Message :=
  history ++ [{ role := Role.model, parts := [{ text := message }] }]

/-- The conversation history built by `GeminiChatAgent.__init__` (lines 40-73):
start from the empty list, append the instruction block as a user message, then
append the acknowledgement as a model message.  No provider call is involved. -/
def init_history : List Message :=
  add_model_message (add_user_message [] initial_instructions) model_acknowledgement

/-- Python truthiness test `not API_KEY` on `os.getenv("GOOGLE_API_KEY")`:
true when the variable is unset (`None`) or set to the empty string. -/
def api_key_missing : Option String → Bool
  | none => true
  | some s => s == ""

/-- `GeminiChatAgent.__init__` credential check (lines 18-21): raise
`ValueError("GOOGLE_API_KEY not found. ...")` when the key is missing,
otherwise produce the bootstrap history.  The raised message is embedded as
the `Except.error` payload. -/
def agent_init (api_key : Option String) : Except String (List Message) :=
  if api_key_missing api_key then
    Except.error "GOOGLE_API_KEY not found. Please set it in your .env file."
  else
    Except.ok init_history

/-- One fragment (`part`) of a response candidate's content.  `text = none`
embeds a part for which `hasattr(part, 'text')` is false. -/
structure ResponsePart where
  text : Option String
deriving DecidableEq

/-- The `content` attribute of a candidate.  `parts = none` embeds a content
for which `hasattr(candidate.content, 'parts')` is false or whose `parts`
is `None`; an empty list embeds a present-but-falsy `parts`. -/
structure Content where
  parts : Option (List ResponsePart)
deriving DecidableEq

/-- One candidate of the provider response.  `content = none` embeds a missing
or falsy `content` attribute; `url_context_metadata = none` embeds a missing or
falsy `url_context_metadata` attribute, and `some md` a truthy one rendered as
the string `md` by the f-string on line 142. -/
structure Candidate where
  content : Option Content
  url_context_metadata : Option String
deriving DecidableEq

/-- The provider response object.  `candidates = none` embeds a response for
which `hasattr(response, 'candidates')` is false or whose `candidates` is
`None`; the empty list embeds a present-but-empty candidate list. -/
structure Response where
  candidates : Option (List Candidate)
deriving DecidableEq

/-- Outcome of the single `self.client.models.generate_content(...)` call:
either an exception (caught by the `except` clause, with `str(e)` as cause) or
a returned value (`none` embeds a falsy/`None` response object). -/
inductive ProviderResult where
  | raises (cause : String)
  | returns (response : Option Response)
deriving DecidableEq

/-- The extraction loop of lines 131-134:
`for part in candidate.content.parts: if hasattr(part, 'text'):
response_text += part.text`. -/
def extract_text (parts : List ResponsePart) : String :=
  parts.foldl
    (fun a part =>
      match part.text with
      | some t => a ++ t
      | none => a)
    ""

/-- `GeminiChatAgent.generate_response` (lines 93-149), with the mutable
history passed explicitly and the provider call's outcome as an argument.
Returns the new history together with the returned string. -/
def generate_response (history : List Message) (user_message : String)
    (provider : ProviderResult) : List Message × String :=
  let history := add_user_message history user_message
  match provider with
  | ProviderResult.raises e =>
      (history, "Error generating response: " ++ e)
  | ProviderResult.returns response =>
    match response with
    | none => (history, "No valid response received from Gemini API")
    | some r =>
      match r.candidates with
      | none => (history, "No valid response received from Gemini API")
      | some [] => (history, "No valid response received from Gemini API")
      | some (candidate :: _) =>
        match candidate.content with
        | none => (history, "No content in response candidate")
        | some content =>
          match content.parts with
          | none => (history, "No parts in content")
          | some [] => (history, "No parts in content")
          | some (p :: ps) =>
            let response_text := extract_text (p :: ps)
            let history := add_model_message history response_text
            match candidate.url_context_metadata with
            | none => (history, response_text)
            | some md =>
                (history, response_text ++ "\n\n[URL Sources: " ++ md ++ "]")

/-- True exactly on the provider outcomes for which `generate_response` takes
one of its error paths (exception, or any failed validation check). -/
def submit_fails : ProviderResult → Bool
  | ProviderResult.raises _ => true
  | ProviderResult.returns none => true
  | ProviderResult.returns (some r) =>
    match r.candidates with
    | none => true
    | some [] => true
    | some (candidate :: _) =>
      match candidate.content with
      | none => true
      | some content =>
        match content.parts with
        | none => true
        | some [] => true
        | some (_ :: _) => false

/-- Iterate `generate_response` over a sequence of user inputs paired with the
provider outcome observed for each call (the conversation loop's effect on the
history). -/
def run_submits (history : List Message) : List (String × ProviderResult) → List Message
  | [] => history
  | (x, pr) :: rest => run_submits (generate_response history x pr).1 rest

/-- Characters removed by Python's `str.strip()` for ASCII input. -/
def is_space (c : Char) : Bool :=
  c = ' ' ∨ c = '\t' ∨ c = '\n' ∨ c = '\r' ∨ c = '\x0b' ∨ c = '\x0c'

/-- Python `str.strip()`: drop leading and trailing whitespace. -/
def strip (s : String) : String :=
  ⟨((s.data.dropWhile is_space).reverse.dropWhile is_space).reverse⟩

/-- Python `str.lower()` for ASCII input. -/
def lower (s : String) : String :=
  ⟨s.data.map Char.toLower⟩

/-- The exit-command list of line 171: `['exit', 'quit', 'bye']`. -/
def exit_commands : List String := ["exit", "quit", "bye"]

/-- The farewell printed on line 172 before `break`. -/
def farewell_message : String :=
  "\nAssistant: Thanks for chatting! Good luck in your adventures!"

/-- What one iteration of the `while True` loop (lines 166-178) does with the
line read from standard input: either break out of the loop printing the
farewell (the process then exits normally), or submit the stripped line as a
user turn. -/
inductive CliAction where
  | exitLoop (farewell : String)
  | submitTurn (text : String)
deriving DecidableEq

/-- One iteration of the CLI loop on the raw input line:
`user_input = input(...).strip()`; if `user_input.lower()` is one of the exit
commands, print the farewell and break; otherwise call
`agent.generate_response(user_input)`. -/
def cli_step (line : String) : CliAction :=
  let user_input := strip line
  if lower user_input ∈ exit_commands then
    CliAction.exitLoop farewell_message
  else
    CliAction.submitTurn user_input

/-- What `main` (lines 151-184) does before the loop: construct the agent; a
`ValueError` from the missing credential is caught on line 180, two lines are
printed, and the function returns without entering the loop. -/
inductive MainOutcome where
  | configFailure (printed : List String)
  | enterLoop (history : List Message)
deriving DecidableEq

/-- Startup of `main`: either the configuration failure path (with the exact
lines printed by the `except ValueError` handler) or entry into the
interactive loop with the bootstrap history. -/
def main_start (api_key : Option String) : MainOutcome :=
  match agent_init api_key with
  | Except.error e =>
      MainOutcome.configFailure
        ["Error: " ++ e, "Please set up your GOOGLE_API_KEY in the .env file."]
  | Except.ok h => MainOutcome.enterLoop h

/-- Accumulator lemma for the extraction fold: folding from `a` prepends `a`
to the result of folding from the empty string. -/
theorem extract_text_acc (ps : List ResponsePart) (a : String) :
    List.foldl
      (fun a part =>
        match part.text with
        | some t => a ++ t
        | none => a)
      a ps
      = a ++ extract_text ps := by
  induction ps generalizing a with
  | nil => simp [extract_text]
  | cons p ps ih =>
    simp only [extract_text, List.foldl_cons]
    cases hp : p.text with
    | none =>
      rw [ih, ih]
      dsimp only
      rw [String.empty_append]
    | some t =>
      rw [ih, ih]
      dsimp only
      rw [String.empty_append, String.append_assoc]

/-- Unfolding the extraction on a fragment that carries text. -/
theorem extract_text_cons_some (t : String) (ps : List ResponsePart) :
    extract_text ({ text := some t } :: ps) = t ++ extract_text ps := by
  show List.foldl _ ("" ++ t) ps = _
  rw [extract_text_acc, String.empty_append]

/-- Unfolding the extraction on a fragment without text: it is skipped. -/
theorem extract_text_cons_none (ps : List ResponsePart) :
    extract_text ({ text := none } :: ps) = extract_text ps := rfl

/-- Every call to `generate_response` either fails, appending exactly the USER
turn, or succeeds, appending the USER turn and one MODEL turn. -/
theorem generate_response_shape (h : List Message) (x : String)
    (pr : ProviderResult) :
    (submit_fails pr = true ∧
      (generate_response h x pr).1
        = h ++ [{ role := Role.user, parts := [{ text := x }] }]) ∨
    (submit_fails pr = false ∧ ∃ t,
      (generate_response h x pr).1
        = h ++ [{ role := Role.user, parts := [{ text := x }] },
                { role := Role.model, parts := [{ text := t }] }]) := by
  cases pr with
  | raises e => exact Or.inl ⟨rfl, rfl⟩
  | returns response =>
    cases response with
    | none => exact Or.inl ⟨rfl, rfl⟩
    | some r =>
      obtain ⟨cands⟩ := r
      cases cands with
      | none => exact Or.inl ⟨rfl, rfl⟩
      | some cl =>
        cases cl with
        | nil => exact Or.inl ⟨rfl, rfl⟩
        | cons c cs =>
          obtain ⟨ct, md⟩ := c
          cases ct with
          | none => exact Or.inl ⟨rfl, rfl⟩
          | some content =>
            obtain ⟨prts⟩ := content
            cases prts with
            | none => exact Or.inl ⟨rfl, rfl⟩
            | some pl =>
              cases pl with
              | nil => exact Or.inl ⟨rfl, rfl⟩
              | cons p ps =>
                cases md with
                | none =>
                  refine Or.inr ⟨rfl, extract_text (p :: ps), ?_⟩
                  simp [generate_response, add_user_message, add_model_message]
                | some m =>
                  refine Or.inr ⟨rfl, extract_text (p :: ps), ?_⟩
                  simp [generate_response, add_user_message, add_model_message]

/-- The previous history is a prefix of the history after any single call. -/
theorem generate_response_extends (h : List Message) (x : String)
    (pr : ProviderResult) :
    h <+: (generate_response h x pr).1 := by
  rcases generate_response_shape h x pr with ⟨_, heq⟩ | ⟨_, t, heq⟩ <;>
    rw [heq] <;> exact List.prefix_append _ _

/-- The previous history is a prefix of the history after any sequence of
calls. -/
theorem run_submits_extends (h : List Message)
    (evs : List (String × ProviderResult)) :
    h <+: run_submits h evs := by
  induction evs generalizing h with
  | nil => exact List.prefix_rfl
  | cons e rest ih =>
    obtain ⟨x, pr⟩ := e
    exact (generate_response_extends h x pr).trans (ih _)

/-- C1: for every successful call `submit(x)` (the provider returns a response
whose first candidate has content with a nonempty parts list, so every
validation check passes), the history grows by exactly 2: first the USER turn
whose text equals `x` exactly, then the MODEL turn carrying the extracted
response text, in that order. -/
theorem C1_successful_submit_appends_user_then_model (h : List Message)
    (x : String) (cs : List Candidate) (md : Option String)
    (p : ResponsePart) (ps : List ResponsePart) :
    (generate_response h x (ProviderResult.returns (some
        { candidates := some
            ({ content := some { parts := some (p :: ps) },
               url_context_metadata := md } :: cs) }))).1
      = h ++ [{ role := Role.user, parts := [{ text := x }] },
              { role := Role.model,
                parts := [{ text := extract_text (p :: ps) }] }] ∧
    (generate_response h x (ProviderResult.returns (some
        { candidates := some
            ({ content := some { parts := some (p :: ps) },
               url_context_metadata := md } :: cs) }))).1.length
      = h.length + 2 := by
  cases md <;>
    exact ⟨by simp [generate_response, add_user_message, add_model_message],
           by simp [generate_response, add_user_message, add_model_message]⟩

/-- C2: when the provider call raises, the exception is caught and turned into
a returned string: the history grows by exactly 1 (only the USER turn with
text `x`), and the returned string is the fixed prefix
`"Error generating response: "` followed by the cause. -/
theorem C2_provider_exception_caught (h : List Message) (x e : String) :
    generate_response h x (ProviderResult.raises e)
      = (h ++ [{ role := Role.user, parts := [{ text := x }] }],
         "Error generating response: " ++ e) ∧
    (generate_response h x (ProviderResult.raises e)).1.length
      = h.length + 1 := by
  exact ⟨rfl, by simp [generate_response, add_user_message]⟩

/-- C3: each failed validation check returns its specific fixed error string
while the history only receives the initial USER append (no MODEL turn):
a falsy response object or missing/empty candidates list yields
`"No valid response received from Gemini API"`, a first candidate without
content yields `"No content in response candidate"`, and content with a
missing or empty parts list yields `"No parts in content"`. -/
theorem C3_validation_failures_fixed_errors (h : List Message) (x : String) :
    (generate_response h x (ProviderResult.returns none)
      = (h ++ [{ role := Role.user, parts := [{ text := x }] }],
         "No valid response received from Gemini API")) ∧
    (generate_response h x (ProviderResult.returns (some { candidates := none }))
      = (h ++ [{ role := Role.user, parts := [{ text := x }] }],
         "No valid response received from Gemini API")) ∧
    (generate_response h x
        (ProviderResult.returns (some { candidates := some [] }))
      = (h ++ [{ role := Role.user, parts := [{ text := x }] }],
         "No valid response received from Gemini API")) ∧
    (∀ md cs, generate_response h x (ProviderResult.returns (some
        { candidates := some
            ({ content := none, url_context_metadata := md } :: cs) }))
      = (h ++ [{ role := Role.user, parts := [{ text := x }] }],
         "No content in response candidate")) ∧
    (∀ md cs, generate_response h x (ProviderResult.returns (some
        { candidates := some
            ({ content := some { parts := none },
               url_context_metadata := md } :: cs) }))
      = (h ++ [{ role := Role.user, parts := [{ text := x }] }],
         "No parts in content")) ∧
    (∀ md cs, generate_response h x (ProviderResult.returns (some
        { candidates := some
            ({ content := some { parts := some [] },
               url_context_metadata := md } :: cs) }))
      = (h ++ [{ role := Role.user, parts := [{ text := x }] }],
         "No parts in content")) :=
  ⟨rfl, rfl, rfl, fun _ _ => rfl, fun _ _ => rfl, fun _ _ => rfl⟩

/-- C4: the extraction concatenates the text of every fragment of the first
candidate in fragment order with no separator; in particular a successful
call whose fragments are `["A", "B", "C"]` returns a string beginning with
`"ABC"` (whether or not a citation block is appended). -/
theorem C4_concatenation_in_fragment_order :
    (extract_text [] = "") ∧
    (∀ t ps, extract_text ({ text := some t } :: ps) = t ++ extract_text ps) ∧
    (∀ (h : List Message) (x : String) (cs : List Candidate)
        (md : Option String), ∃ rest,
      (generate_response h x (ProviderResult.returns (some
          { candidates := some
              ({ content := some
                   { parts := some
                       [{ text := some "A" }, { text := some "B" },
                        { text := some "C" }] },
                 url_context_metadata := md } :: cs) }))).2
        = "ABC" ++ rest) := by
  refine ⟨rfl, extract_text_cons_some, ?_⟩
  intro h x cs md
  have hE : extract_text
      [{ text := some "A" }, { text := some "B" }, { text := some "C" }]
      = "ABC" := by decide
  cases md with
  | none =>
    refine ⟨"", ?_⟩
    show extract_text _ = "ABC" ++ ""
    rw [hE, String.append_empty]
  | some m =>
    refine ⟨"\n\n[URL Sources: " ++ m ++ "]", ?_⟩
    show extract_text _ ++ "\n\n[URL Sources: " ++ m ++ "]" = _
    rw [hE]
    simp only [String.append_assoc]

/-- C5: the bootstrap pair built at session creation: after `__init__` the
history has exactly 2 entries, a USER turn carrying the static instruction
block followed by a MODEL turn carrying the static acknowledgement; no
provider interaction is involved in building it (`init_history` is defined
without any `ProviderResult`). -/
theorem C5_bootstrap_pair :
    init_history
      = [{ role := Role.user, parts := [{ text := initial_instructions }] },
         { role := Role.model, parts := [{ text := model_acknowledgement }] }] ∧
    init_history.length = 2 ∧
    init_history.map Message.role = [Role.user, Role.model] :=
  ⟨rfl, rfl, rfl⟩

/-- C6: when the first candidate carries truthy `url_context_metadata`, the
citation block is appended only to the returned string: the stored MODEL turn
contains exactly the concatenated fragment text, and the returned string
equals that stored text followed by the citation block. -/
theorem C6_citation_block_only_in_return (h : List Message) (x m : String)
    (cs : List Candidate) (p : ResponsePart) (ps : List ResponsePart) :
    (generate_response h x (ProviderResult.returns (some
        { candidates := some
            ({ content := some { parts := some (p :: ps) },
               url_context_metadata := some m } :: cs) }))).1
      = h ++ [{ role := Role.user, parts := [{ text := x }] },
              { role := Role.model,
                parts := [{ text := extract_text (p :: ps) }] }] ∧
    (generate_response h x (ProviderResult.returns (some
        { candidates := some
            ({ content := some { parts := some (p :: ps) },
               url_context_metadata := some m } :: cs) }))).2
      = extract_text (p :: ps) ++ "\n\n[URL Sources: " ++ m ++ "]" :=
  ⟨by simp [generate_response, add_user_message, add_model_message], rfl⟩

/-- C7 counterexample: the empty input line is not an exit token, yet the loop
submits it as a user turn, refuting the claim that only a non-empty line is
submitted. -/
theorem C7_counterexample :
    cli_step "" = CliAction.submitTurn "" ∧
    ¬ (∀ line t, cli_step line = CliAction.submitTurn t → t ≠ "") := by
  refine ⟨by decide, fun hcl => hcl "" "" (by decide) rfl⟩

/-- C7 (amended): for every line read from standard input, if the stripped
line compared case-insensitively is one of the exit tokens exit, quit, bye,
the loop terminates with the farewell message; any other line — including one
that is empty after stripping — is submitted as a user turn with its stripped
text. -/
theorem C7_cli_step_amended (line : String) :
    (cli_step line = CliAction.exitLoop farewell_message ↔
      (lower (strip line) = "exit" ∨ lower (strip line) = "quit" ∨
        lower (strip line) = "bye")) ∧
    (lower (strip line) ≠ "exit" → lower (strip line) ≠ "quit" →
      lower (strip line) ≠ "bye" →
      cli_step line = CliAction.submitTurn (strip line)) := by
  have hmemiff : (lower (strip line) ∈ exit_commands) ↔
      (lower (strip line) = "exit" ∨ lower (strip line) = "quit" ∨
        lower (strip line) = "bye") := by
    simp [exit_commands]
  constructor
  · constructor
    · intro hex
      by_cases hmem : lower (strip line) ∈ exit_commands
      · exact hmemiff.mp hmem
      · exfalso
        simp only [cli_step, if_neg hmem] at hex
        exact CliAction.noConfusion hex
    · intro hd
      simp only [cli_step, if_pos (hmemiff.mpr hd)]
  · intro h1 h2 h3
    have hmem : ¬ lower (strip line) ∈ exit_commands := fun hmem => by
      rcases hmemiff.mp hmem with h | h | h
      · exact h1 h
      · exact h2 h
      · exact h3 h
    simp only [cli_step, if_neg hmem]

/-- C7 witness: a non-token line is submitted stripped, and an exit token
surrounded by whitespace in mixed case terminates the loop. -/
theorem C7_cli_step_amended_witness :
    cli_step "  hello  " = CliAction.submitTurn "hello" ∧
    cli_step " EXIT " = CliAction.exitLoop farewell_message :=
  ⟨(C7_cli_step_amended "  hello  ").2 (by decide) (by decide) (by decide),
   (C7_cli_step_amended " EXIT ").1.mpr (by decide)⟩

/-- C8: when the API-key credential is absent (unset or empty), `__init__`
raises the configuration error before any provider interaction or history
append, and `main` reports it and returns without entering the interactive
loop. -/
theorem C8_missing_api_key (k : Option String)
    (hk : api_key_missing k = true) :
    agent_init k
      = Except.error
          "GOOGLE_API_KEY not found. Please set it in your .env file." ∧
    main_start k
      = MainOutcome.configFailure
          ["Error: GOOGLE_API_KEY not found. Please set it in your .env file.",
           "Please set up your GOOGLE_API_KEY in the .env file."] := by
  have h1 : agent_init k
      = Except.error
          "GOOGLE_API_KEY not found. Please set it in your .env file." := by
    simp [agent_init, hk]
  refine ⟨h1, ?_⟩
  simp only [main_start, h1]
  decide

/-- C8 witness: the unset credential case. -/
theorem C8_missing_api_key_witness :
    agent_init none
      = Except.error
          "GOOGLE_API_KEY not found. Please set it in your .env file." ∧
    main_start none
      = MainOutcome.configFailure
          ["Error: GOOGLE_API_KEY not found. Please set it in your .env file.",
           "Please set up your GOOGLE_API_KEY in the .env file."] :=
  C8_missing_api_key none (by decide)

/-- C9: the history is append-only: every call and every sequence of calls
extends the existing history (so entries are never reordered, pruned, or
modified), the bootstrap pair stays at positions 0 and 1 after any sequence of
calls starting from the bootstrap history, and every failing call appends
exactly one USER entry and no MODEL entry. -/
theorem C9_transcript_append_only :
    (∀ (h : List Message) (x : String) (pr : ProviderResult),
      h <+: (generate_response h x pr).1) ∧
    (∀ (h : List Message) (evs : List (String × ProviderResult)),
      h <+: run_submits h evs) ∧
    (∀ evs : List (String × ProviderResult),
      (run_submits init_history evs).take 2 = init_history) ∧
    (∀ (h : List Message) (x : String) (pr : ProviderResult),
      submit_fails pr = true →
      (generate_response h x pr).1
        = h ++ [{ role := Role.user, parts := [{ text := x }] }]) := by
  refine ⟨generate_response_extends, run_submits_extends, ?_, ?_⟩
  · intro evs
    have hpf := run_submits_extends init_history evs
    have hto := List.prefix_iff_eq_take.mp hpf
    have hl : init_history.length = 2 := rfl
    rw [hl] at hto
    exact hto.symm
  · intro h x pr hf
    rcases generate_response_shape h x pr with ⟨_, heq⟩ | ⟨hff, _, _⟩
    · exact heq
    · rw [hf] at hff
      exact Bool.noConfusion hff

/-- C9 witness: one failing call from the bootstrap history. -/
theorem C9_transcript_append_only_witness :
    (generate_response init_history "hello" (ProviderResult.raises "boom")).1
      = init_history
          ++ [{ role := Role.user, parts := [{ text := "hello" }] }] ∧
    init_history <+:
      run_submits init_history [("hello", ProviderResult.raises "boom")] :=
  ⟨C9_transcript_append_only.2.2.2 init_history "hello"
      (ProviderResult.raises "boom") rfl,
   C9_transcript_append_only.2.1 init_history
      [("hello", ProviderResult.raises "boom")]⟩

/-- C10: a successful response whose nonempty fragment list contains fragments
without a text field does not fail: textless fragments are silently skipped,
the MODEL turn stores the concatenation of only the present text fields in
order, and when every fragment is textless the stored and returned text is the
empty string. -/
theorem C10_textless_fragments_skipped (h : List Message) (x : String) :
    (∀ ps, extract_text ({ text := none } :: ps) = extract_text ps) ∧
    (∀ (cs : List Candidate) (md : Option String) (p : ResponsePart)
        (ps : List ResponsePart),
      (generate_response h x (ProviderResult.returns (some
          { candidates := some
              ({ content := some { parts := some (p :: ps) },
                 url_context_metadata := md } :: cs) }))).1
        = h ++ [{ role := Role.user, parts := [{ text := x }] },
                { role := Role.model,
                  parts := [{ text := extract_text (p :: ps) }] }]) ∧
    (generate_response h x (ProviderResult.returns (some
        { candidates := some
            [{ content := some { parts := some [{ text := none }] },
               url_context_metadata := none }] }))
      = (h ++ [{ role := Role.user, parts := [{ text := x }] },
               { role := Role.model, parts := [{ text := "" }] }], "")) := by
  refine ⟨fun ps => rfl, ?_, ?_⟩
  · intro cs md p ps
    cases md <;>
      simp [generate_response, add_user_message, add_model_message]
  · simp [generate_response, add_user_message, add_model_message, extract_text]
